import Mathlib

/-!
Shallow embedding of the contact-form module (`contact.ts`) of the
smile-support repository: security-answer validation, form validation,
reCAPTCHA verification, HTML escaping, and the two-email send routine,
together with proofs of the specified properties.

Strings are modelled as Lean `String`/`List Char`; JavaScript runtime
values reaching the form validator are modelled by the inductive
`JSValue`; the network and the mail transporter are modelled as explicit
oracle parameters so that the observable behaviour (results and the
ordered trace of dispatched messages) is a pure function of the inputs.
-/

/-! ## JavaScript string primitives used by the source -/

/-- Whitespace as matched by JavaScript regular-expression `\s` and by
`String.prototype.trim` (ASCII whitespace, NBSP, the Unicode space block,
line/paragraph separators, ideographic space, BOM). -/
def isJsSpace (c : Char) : Bool :=
  c == ' ' || c == Char.ofNat 9 || c == Char.ofNat 10 || c == Char.ofNat 11 ||
  c == Char.ofNat 12 || c == Char.ofNat 13 || c == Char.ofNat 0xa0 ||
  c == Char.ofNat 0x1680 || (decide (0x2000 ≤ c.toNat) && decide (c.toNat ≤ 0x200a)) ||
  c == Char.ofNat 0x2028 || c == Char.ofNat 0x2029 || c == Char.ofNat 0x202f ||
  c == Char.ofNat 0x205f || c == Char.ofNat 0x3000 || c == Char.ofNat 0xfeff

/-- `String.prototype.trim`: drop leading and trailing whitespace. -/
def trimL (l : List Char) : List Char :=
  ((l.dropWhile isJsSpace).reverse.dropWhile isJsSpace).reverse

/-- `s.trim()` on strings. -/
def jsTrim (s : String) : String :=
  String.mk (trimL s.data)

/-- `s.replace(/\s+/g, "")`: remove every whitespace character. -/
def removeSpaces (l : List Char) : List Char :=
  l.filter fun c => !(isJsSpace c)

/-- `s.replace(/\./g, "")`: remove every dot. -/
def removeDots (l : List Char) : List Char :=
  l.filter fun c => !(c == '.')

/-- `s.toLowerCase()` (ASCII case mapping; the characters appearing in the
fixed answer set are unaffected by full Unicode case mapping). -/
def lowerL (l : List Char) : List Char :=
  l.map Char.toLower

/-- Bool-valued substring test, the semantics of
`String.prototype.includes`: does `needle` occur contiguously in the
second argument? -/
def occursIn (needle : List Char) : List Char → Bool
  | [] => needle.isEmpty
  | c :: t => needle.isPrefixOf (c :: t) || occursIn needle t

/-! ## Security-answer validation (`validateSecurityAnswer`) -/

/-- The fixed accepted spellings of the expected quiz answer. -/
def SECURITY_ANSWER_VARIANTS : List String :=
  ["富士山", "ふじさん", "フジサン", "fujisan", "mt.fuji", "mtfuji", "mount fuji"]

/-- `validateSecurityAnswer`: normalize the input
(trim, lowercase, remove whitespace, remove dots) and compare with every
variant normalized by lowercase, remove whitespace, remove dots. -/
def validateSecurityAnswer (answer : String) : Bool :=
  let normalized := removeDots (removeSpaces (lowerL (trimL answer.data)))
  SECURITY_ANSWER_VARIANTS.any fun variant =>
    normalized == removeDots (removeSpaces (lowerL variant.data))

/-- The normalization pipeline exactly as the specification words it:
trim leading/trailing whitespace, lowercase, remove all internal
whitespace, remove all dot characters. -/
def specNormalize (s : String) : List Char :=
  removeDots (removeSpaces (lowerL (trimL s.data)))

/-! ## Form validation (`validateContactForm`) -/

/-- JavaScript runtime values that can reach the form validator. -/
inductive JSValue where
  | null
  | undefined
  | boolean (b : Bool)
  | number (n : Int)
  | str (s : String)
  | obj (fields : List (String × JSValue))

/-- The JavaScript `typeof` operator on modelled values. -/
def jsTypeof : JSValue → String
  | .null => "object"
  | .undefined => "undefined"
  | .boolean _ => "boolean"
  | .number _ => "number"
  | .str _ => "string"
  | .obj _ => "object"

/-- `data === null`. -/
def isNullJS : JSValue → Bool
  | .null => true
  | _ => false

/-- Property read `d.key`: the first binding of the key, `undefined` when
absent or when the receiver is not an object. -/
def getFieldJS (v : JSValue) (key : String) : JSValue :=
  match v with
  | .obj fields =>
    match fields.lookup key with
    | some x => x
    | none => JSValue.undefined
  | _ => JSValue.undefined

/-- `typeof x === "string"`. -/
def isStrJS : JSValue → Bool
  | .str _ => true
  | _ => false

/-- The character data of a string value (irrelevant default elsewhere;
the source only reads it under a string type guard). -/
def strOfJS : JSValue → List Char
  | .str s => s.data
  | _ => []

/-- `validateContactForm`: non-null object with non-blank `name`, an
`email` containing `@`, non-blank `message`, and a string
`securityAnswer`. -/
def validateContactForm (data : JSValue) : Bool :=
  if jsTypeof data != "object" || isNullJS data then false
  else
    (isStrJS (getFieldJS data "name") &&
      decide (0 < (trimL (strOfJS (getFieldJS data "name"))).length)) &&
    (isStrJS (getFieldJS data "email") &&
      occursIn "@".data (strOfJS (getFieldJS data "email"))) &&
    (isStrJS (getFieldJS data "message") &&
      decide (0 < (trimL (strOfJS (getFieldJS data "message"))).length)) &&
    isStrJS (getFieldJS data "securityAnswer")

/-! ## reCAPTCHA verification (`verifyRecaptcha`) -/

/-- Outcome of the outbound verification call: a parsed JSON body with its
`success` flag, or an exception thrown by the fetch or by parsing. -/
inductive FetchOutcome where
  | ok (success : Bool)
  | throwEx

/-- Observable behaviour of one `verifyRecaptcha` call: the returned
boolean and whether the network was contacted. -/
structure RecaptchaCall where
  verdict : Bool
  networkCalled : Bool
deriving DecidableEq

/-- JavaScript falsiness of the optional secret key (`!secretKey`):
true for `undefined` and for the empty string. -/
def jsFalsyStr : Option String → Bool
  | none => true
  | some s => s == ""

/-- `verifyRecaptcha`: skip (returning true) when no secret key is
configured; otherwise return the endpoint's `success` flag, or `false`
when the call throws. -/
def verifyRecaptcha (_token : String) (secretKey : Option String)
    (net : FetchOutcome) : RecaptchaCall :=
  if jsFalsyStr secretKey then
    { verdict := true, networkCalled := false }
  else
    match net with
    | .ok success => { verdict := success, networkCalled := true }
    | .throwEx => { verdict := false, networkCalled := true }

/-! ## HTML escaping (`escapeHtml`) -/

/-- The double-quote character. -/
def quotChar : Char := Char.ofNat 34

/-- The single-quote character. -/
def aposChar : Char := Char.ofNat 39

/-- The character class of the regular expression `[&<>"']`. -/
def isHtmlReserved (c : Char) : Bool :=
  c == '&' || c == '<' || c == '>' || c == quotChar || c == aposChar

/-- The replacement record `map` of `escapeHtml`. -/
def escapeMapLookup (c : Char) : Option String :=
  if c == '&' then some "&amp;"
  else if c == '<' then some "&lt;"
  else if c == '>' then some "&gt;"
  else if c == quotChar then some "&quot;"
  else if c == aposChar then some "&#039;"
  else none

/-- The per-character action of `text.replace(/[&<>"']/g, (char) =>
map[char] || char)`: matched characters are replaced by their record
entry (falling back to the character itself), others are untouched. -/
def replaceReservedChar (c : Char) : List Char :=
  if isHtmlReserved c then ((escapeMapLookup c).getD (String.singleton c)).data
  else [c]

/-- `escapeHtml`: single-pass character-wise replacement. -/
def escapeHtml (text : String) : String :=
  String.mk (text.data.map replaceReservedChar).flatten

/-- The character replacement table as the specification words it: the
five reserved characters map to their named entity references and every
other character maps to itself. -/
def specEscapeChar (c : Char) : List Char :=
  if c = '&' then "&amp;".data
  else if c = '<' then "&lt;".data
  else if c = '>' then "&gt;".data
  else if c = quotChar then "&quot;".data
  else if c = aposChar then "&#039;".data
  else [c]

/-! ## Email composition and sending (`sendContactEmail`) -/

/-- The contact form request body (`ContactFormData`). -/
structure ContactFormData where
  name : String
  company : Option String
  email : String
  phone : Option String
  message : String
  securityAnswer : String
  recaptchaToken : Option String
deriving DecidableEq

/-- A structured message handed to `transporter.sendMail`. -/
structure MailOptions where
  fromAddr : String
  toAddr : String
  replyTo : Option String
  subject : String
  html : String
  text : String
deriving DecidableEq

/-- The result object of `sendContactEmail`. -/
structure SendContactEmailResult where
  success : Bool
  message : Option String
  error : Option String
deriving DecidableEq

/-- Observable behaviour of one `sendContactEmail` call: the ordered
trace of messages passed to the transporter and the returned result. -/
structure SendTrace where
  sent : List MailOptions
  result : SendContactEmailResult
deriving DecidableEq

/-- JavaScript truthiness of an optional string field
(`company ? a : b`): false for `undefined` and for the empty string. -/
def jsTruthyStr : Option String → Bool
  | none => false
  | some s => !(s == "")

/-- The string content of an optional field in a truthy branch. -/
def optStr : Option String → String
  | none => ""
  | some s => s

/-- Placeholder rendered for absent optional fields. -/
def notEnteredPlaceholder : String := "（未入力）"

/-- Notification HTML before the interpolated `name`. -/
def notifHtmlA : String :=
  "\n        <h2>お問い合わせがありました</h2>\n        <table border=\"1\" cellpadding=\"10\" cellspacing=\"0\" style=\"border-collapse: collapse;\">\n          <tr>\n            <th style=\"background-color: #f5f5f5; text-align: left;\">お名前</th>\n            <td>"

/-- Notification HTML between `name` and the company cell. -/
def notifHtmlB : String :=
  "</td>\n          </tr>\n          <tr>\n            <th style=\"background-color: #f5f5f5; text-align: left;\">会社名</th>\n            <td>"

/-- Notification HTML between the company cell and the mailto href. -/
def notifHtmlC : String :=
  "</td>\n          </tr>\n          <tr>\n            <th style=\"background-color: #f5f5f5; text-align: left;\">メールアドレス</th>\n            <td><a href=\"mailto:"

/-- Notification HTML between the href and the anchor text. -/
def notifHtmlD : String := "\">"

/-- Notification HTML between the anchor text and the phone cell. -/
def notifHtmlE : String :=
  "</a></td>\n          </tr>\n          <tr>\n            <th style=\"background-color: #f5f5f5; text-align: left;\">電話番号</th>\n            <td>"

/-- Notification HTML between the phone cell and the message cell. -/
def notifHtmlF : String :=
  "</td>\n          </tr>\n          <tr>\n            <th style=\"background-color: #f5f5f5; text-align: left;\">お問い合わせ内容</th>\n            <td style=\"white-space: pre-wrap;\">"

/-- Notification HTML after the message cell. -/
def notifHtmlG : String :=
  "</td>\n          </tr>\n        </table>\n        <p style=\"margin-top: 20px; color: #666; font-size: 12px;\">\n          このメールはすまいるサポートのお問い合わせフォームから送信されました。\n        </p>\n      "

/-- The admin-notification `mailOptions` object built by
`sendContactEmail`. -/
def notificationOptions (d : ContactFormData) (gmailUser : String) : MailOptions :=
  { fromAddr := "\"すまいるサポート お問い合わせ\" <" ++ gmailUser ++ ">"
  , toAddr := gmailUser
  , replyTo := some d.email
  , subject := "【お問い合わせ】" ++ d.name ++ "様より"
  , html :=
      notifHtmlA ++ escapeHtml d.name ++ notifHtmlB ++
      (if jsTruthyStr d.company then escapeHtml (optStr d.company)
       else notEnteredPlaceholder) ++
      notifHtmlC ++ escapeHtml d.email ++ notifHtmlD ++ escapeHtml d.email ++
      notifHtmlE ++
      (if jsTruthyStr d.phone then escapeHtml (optStr d.phone)
       else notEnteredPlaceholder) ++
      notifHtmlF ++ escapeHtml d.message ++ notifHtmlG
  , text := jsTrim
      ("\nお問い合わせがありました\n\nお名前: " ++ d.name ++ "\n会社名: " ++
       (if jsTruthyStr d.company then optStr d.company else notEnteredPlaceholder) ++
       "\nメールアドレス: " ++ d.email ++ "\n電話番号: " ++
       (if jsTruthyStr d.phone then optStr d.phone else notEnteredPlaceholder) ++
       "\n\nお問い合わせ内容:\n" ++ d.message ++ "\n      ") }

/-- Auto-reply HTML before the interpolated `name`. -/
def autoHtmlA : String :=
  "\n        <div style=\"font-family: sans-serif; max-width: 600px; margin: 0 auto;\">\n          <h2 style=\"color: #D2691E;\">お問い合わせありがとうございます</h2>\n          <p>"

/-- Auto-reply HTML between the greeting name and the summary name. -/
def autoHtmlB : String :=
  " 様</p>\n          <p>\n            この度は、すまいるサポートにお問い合わせいただき、誠にありがとうございます。<br>\n            以下の内容でお問い合わせを受け付けました。\n          </p>\n          <div style=\"background-color: #FFF8F0; padding: 20px; border-radius: 8px; margin: 20px 0;\">\n            <p style=\"margin: 0 0 10px 0;\"><strong>お名前:</strong> "

/-- Auto-reply HTML between the summary name and the company block. -/
def autoHtmlC : String := "</p>\n            "

/-- Auto-reply HTML opening the conditional company paragraph. -/
def autoCompanyOpen : String :=
  "<p style=\"margin: 0 0 10px 0;\"><strong>会社名:</strong> "

/-- Auto-reply HTML closing a conditional paragraph. -/
def autoParaClose : String := "</p>"

/-- Auto-reply HTML between the company block and the email line. -/
def autoHtmlD : String :=
  "\n            <p style=\"margin: 0 0 10px 0;\"><strong>メールアドレス:</strong> "

/-- Auto-reply HTML between the email line and the phone block. -/
def autoHtmlE : String := "</p>\n            "

/-- Auto-reply HTML opening the conditional phone paragraph. -/
def autoPhoneOpen : String :=
  "<p style=\"margin: 0 0 10px 0;\"><strong>電話番号:</strong> "

/-- Auto-reply HTML between the phone block and the message block. -/
def autoHtmlF : String :=
  "\n            <p style=\"margin: 0;\"><strong>お問い合わせ内容:</strong></p>\n            <p style=\"margin: 5px 0 0 0; white-space: pre-wrap;\">"

/-- Auto-reply HTML after the message block. -/
def autoHtmlG : String :=
  "</p>\n          </div>\n          <p>\n            担当者より<strong>2営業日以内</strong>にご連絡いたしますので、<br>\n            今しばらくお待ちくださいませ。\n          </p>\n          <hr style=\"border: none; border-top: 1px solid #ddd; margin: 30px 0;\">\n          <p style=\"color: #666; font-size: 12px;\">\n            すまいるサポート<br>\n            〒142-0042 東京都品川区豊町6-18-15 ミュージションテラス品川豊町<br>\n            <br>\n            ※このメールは自動送信されています。<br>\n            ※このメールに心当たりがない場合は、お手数ですが削除してください。\n          </p>\n        </div>\n      "

/-- The customer auto-reply `autoReplyOptions` object built by
`sendContactEmail`. -/
def autoReplyOptions (d : ContactFormData) (gmailUser : String) : MailOptions :=
  { fromAddr := "\"すまいるサポート\" <" ++ gmailUser ++ ">"
  , toAddr := d.email
  , replyTo := none
  , subject := "【すまいるサポート】お問い合わせを受け付けました"
  , html :=
      autoHtmlA ++ escapeHtml d.name ++ autoHtmlB ++ escapeHtml d.name ++
      autoHtmlC ++
      (if jsTruthyStr d.company then
        autoCompanyOpen ++ escapeHtml (optStr d.company) ++ autoParaClose
       else "") ++
      autoHtmlD ++ escapeHtml d.email ++ autoHtmlE ++
      (if jsTruthyStr d.phone then
        autoPhoneOpen ++ escapeHtml (optStr d.phone) ++ autoParaClose
       else "") ++
      autoHtmlF ++ escapeHtml d.message ++ autoHtmlG
  , text := jsTrim
      ("\n" ++ d.name ++
       " 様\n\nこの度は、すまいるサポートにお問い合わせいただき、誠にありがとうございます。\n以下の内容でお問い合わせを受け付けました。\n\n━━━━━━━━━━━━━━━━━━━━━━━━━━━━━━\nお名前: " ++
       d.name ++ "\n" ++
       (if jsTruthyStr d.company then "会社名: " ++ optStr d.company ++ "\n" else "") ++
       "メールアドレス: " ++ d.email ++ "\n" ++
       (if jsTruthyStr d.phone then "電話番号: " ++ optStr d.phone ++ "\n" else "") ++
       "\nお問い合わせ内容:\n" ++ d.message ++
       "\n━━━━━━━━━━━━━━━━━━━━━━━━━━━━━━\n\n担当者より2営業日以内にご連絡いたしますので、\n今しばらくお待ちくださいませ。\n\n─────────────────────────────\nすまいるサポート\n〒142-0042 東京都品川区豊町6-18-15 ミュージションテラス品川豊町\n\n※このメールは自動送信されています。\n※このメールに心当たりがない場合は、お手数ですが削除してください。\n      ") }

/-- Localized success message of `sendContactEmail`. -/
def contactSuccessMessage : String :=
  "お問い合わせを受け付けました。担当者より2営業日以内にご連絡いたします。"

/-- Localized generic failure message of `sendContactEmail`. -/
def contactFailureError : String :=
  "メールの送信に失敗しました。しばらく経ってから再度お試しください。"

/-- `sendContactEmail`: build and dispatch the admin notification, then
(only if it succeeded) the customer auto-reply; any rejection is caught
and mapped to a generic failure result. The transporter is modelled as a
function from a message to whether its dispatch resolves. -/
def sendContactEmail (formData : ContactFormData)
    (transporter : MailOptions → Bool) (gmailUser : String) : SendTrace :=
  let mailOptions := notificationOptions formData gmailUser
  if transporter mailOptions then
    let autoReply := autoReplyOptions formData gmailUser
    if transporter autoReply then
      { sent := [mailOptions, autoReply]
      , result :=
          { success := true, message := some contactSuccessMessage, error := none } }
    else
      { sent := [mailOptions, autoReply]
      , result :=
          { success := false, message := none, error := some contactFailureError } }
  else
    { sent := [mailOptions]
    , result :=
        { success := false, message := none, error := some contactFailureError } }

/-! ## Constants and a chunk view of the notification HTML body -/

/-- The raw script-tag needle. -/
def scriptTag : String := "<script>"

/-- The HTML-escaped form of the script-tag needle. -/
def escapedScriptTag : String := "&lt;script&gt;"

/-- `escapeHtml` at the character-list level. -/
def escapeFlat (l : List Char) : List Char :=
  (l.map replaceReservedChar).flatten

/-- One piece of an interpolated HTML template: literal template text or
an HTML-escaped user-supplied value. -/
inductive HtmlChunk where
  | lit (s : String)
  | esc (s : String)

/-- The character data a chunk contributes to the rendered body. -/
def renderChunk : HtmlChunk → List Char
  | .lit s => s.data
  | .esc s => (escapeHtml s).data

/-- The rendered body of a chunk list. -/
def renderChunks : List HtmlChunk → List Char
  | [] => []
  | c :: cs => renderChunk c ++ renderChunks cs

/-- A literal template fragment is safe for the needle `['<', 's', 'c']`:
it does not contain it and does not end with `'<'` or with `"<s"`,
so no occurrence of the needle can start inside the fragment. -/
def fragSafe (s : String) : Bool :=
  !(occursIn ['<', 's', 'c'] s.data) &&
  !(List.isSuffixOf ['<'] s.data) &&
  !(List.isSuffixOf ['<', 's'] s.data)

/-- Safety of a chunk for the needle `['<', 's', 'c']`: literal fragments
must pass `fragSafe`; escaped values are always safe because escaping
removes every `'<'`. -/
def chunkSafe : HtmlChunk → Prop
  | .lit s => fragSafe s = true
  | .esc _ => True

/-- The notification HTML body as a chunk list, matching the template of
`notificationOptions` piece by piece. -/
def notifHtmlChunks (d : ContactFormData) : List HtmlChunk :=
  [HtmlChunk.lit notifHtmlA, HtmlChunk.esc d.name, HtmlChunk.lit notifHtmlB,
   (if jsTruthyStr d.company then HtmlChunk.esc (optStr d.company)
    else HtmlChunk.lit notEnteredPlaceholder),
   HtmlChunk.lit notifHtmlC, HtmlChunk.esc d.email, HtmlChunk.lit notifHtmlD,
   HtmlChunk.esc d.email, HtmlChunk.lit notifHtmlE,
   (if jsTruthyStr d.phone then HtmlChunk.esc (optStr d.phone)
    else HtmlChunk.lit notEnteredPlaceholder),
   HtmlChunk.lit notifHtmlF, HtmlChunk.esc d.message, HtmlChunk.lit notifHtmlG]

/-! ## Sample data used by the witnesses -/

/-- A submission whose name carries a raw script tag. -/
def sampleAttackData : ContactFormData :=
  { name := "<script>alert(1)</script>"
  , company := none
  , email := "test@example.com"
  , phone := none
  , message := "hello"
  , securityAnswer := "富士山"
  , recaptchaToken := none }

/-- An ordinary valid submission. -/
def sampleFormData : ContactFormData :=
  { name := "山田太郎"
  , company := none
  , email := "test@example.com"
  , phone := none
  , message := "お問い合わせ内容です"
  , securityAnswer := "富士山"
  , recaptchaToken := none }

/-! ## Substring lemmas -/

/-- `occursIn` decides list-infix occurrence. -/
theorem occursIn_iff (n : List Char) (h : List Char) :
    occursIn n h = true ↔ n <:+: h := by
  induction h with
  | nil =>
    simp [occursIn, List.isEmpty_iff, List.infix_nil]
  | cons c t ih =>
    simp [occursIn, List.infix_cons_iff, ih]

/-- An occurrence of `t` in `a ++ b` lies in `a`, lies in `b`, or spans
the boundary: a nonempty suffix of `a` followed by a nonempty prefix of
`b`. -/
theorem infix_append_split {α : Type} {t a b : List α} (h : t <:+: a ++ b) :
    t <:+: a ∨ t <:+: b ∨
      ∃ t₁ t₂, t = t₁ ++ t₂ ∧ t₁ ≠ [] ∧ t₂ ≠ [] ∧ t₁ <:+ a ∧ t₂ <+: b := by
  obtain ⟨s, e, hse⟩ := h
  rw [List.append_assoc] at hse
  rcases List.append_eq_append_iff.mp hse with ⟨m, hm1, hm2⟩ | ⟨m, hm1, hm2⟩
  · rcases List.append_eq_append_iff.mp hm2 with ⟨w, hw1, hw2⟩ | ⟨w, hw1, hw2⟩
    · left
      exact ⟨s, w, by rw [hm1, hw1, List.append_assoc]⟩
    · rcases eq_or_ne w [] with rfl | hw
      · left
        rw [List.append_nil] at hw1
        exact ⟨s, [], by rw [List.append_nil, hm1, hw1]⟩
      · rcases eq_or_ne m [] with rfl | hm
        · right; left
          rw [List.nil_append] at hw1
          exact ⟨[], e, by rw [List.nil_append, hw1]; exact hw2.symm⟩
        · right; right
          exact ⟨m, w, hw1, hm, hw, ⟨s, hm1.symm⟩, ⟨e, hw2.symm⟩⟩
  · right; left
    exact ⟨m, e, by rw [List.append_assoc, ← hm2]⟩

/-- The possible boundary splits of the needle `['<', 's', 'c']`. -/
theorem ltsc_split (t₁ t₂ : List Char) (h : t₁ ++ t₂ = ['<', 's', 'c'])
    (h₁ : t₁ ≠ []) (h₂ : t₂ ≠ []) : t₁ = ['<'] ∨ t₁ = ['<', 's'] := by
  rcases t₁ with _ | ⟨a, _ | ⟨b, _ | ⟨c, t⟩⟩⟩ <;>
    simp_all [List.append_eq_nil]

/-! ## Escaping removes `'<'` -/

/-- No replacement ever emits a `'<'`. -/
theorem lt_not_mem_replaceReservedChar (c : Char) : '<' ∉ replaceReservedChar c := by
  by_cases h1 : c = '&'
  · subst h1; decide
  by_cases h2 : c = '<'
  · subst h2; decide
  by_cases h3 : c = '>'
  · subst h3; decide
  by_cases h4 : c = quotChar
  · subst h4; decide
  by_cases h5 : c = aposChar
  · subst h5; decide
  have hr : isHtmlReserved c = false := by
    simp [isHtmlReserved, h1, h2, h3, h4, h5]
  intro hmem
  rw [replaceReservedChar, hr] at hmem
  simp at hmem
  exact h2 hmem.symm

/-- The escaped form of any text contains no `'<'`. -/
theorem lt_not_mem_escapeHtml (s : String) : '<' ∉ (escapeHtml s).data := by
  intro hmem
  have hmem' : '<' ∈ (s.data.map replaceReservedChar).flatten := hmem
  obtain ⟨l, hl, hcl⟩ := List.mem_flatten.mp hmem'
  obtain ⟨c, _, rfl⟩ := List.mem_map.mp hl
  exact lt_not_mem_replaceReservedChar c hcl

/-- Escaping is a homomorphism for concatenation. -/
theorem escapeFlat_append (a b : List Char) :
    escapeFlat (a ++ b) = escapeFlat a ++ escapeFlat b := by
  simp [escapeFlat]

/-! ## No raw `<script>` in a safely chunked body -/

/-- A chunk list of safe chunks renders to a body with no occurrence of
`['<', 's', 'c']`. -/
theorem renderChunks_no_ltsc (cs : List HtmlChunk)
    (hsafe : ∀ c ∈ cs, chunkSafe c) : ¬ (['<', 's', 'c'] <:+: renderChunks cs) := by
  induction cs with
  | nil =>
    rw [renderChunks]
    intro h
    simp [List.infix_nil] at h
  | cons c cs ih =>
    intro h
    rw [renderChunks] at h
    rcases infix_append_split h with h1 | h2 | ⟨t₁, t₂, ht, h₁ne, h₂ne, hsuf, _⟩
    · rcases c with s | s
      · have hfs : fragSafe s = true := hsafe (HtmlChunk.lit s) (by simp)
        rw [fragSafe] at hfs
        simp only [Bool.and_eq_true, Bool.not_eq_true'] at hfs
        rw [← occursIn_iff] at h1
        rw [renderChunk] at h1
        rw [h1] at hfs
        exact absurd hfs.1.1 (by simp)
      · have : '<' ∈ renderChunk (HtmlChunk.esc s) := h1.subset (by simp)
        rw [renderChunk] at this
        exact lt_not_mem_escapeHtml s this
    · exact ih (fun x hx => hsafe x (List.mem_cons_of_mem c hx)) h2
    · rcases c with s | s
      · have hfs : fragSafe s = true := hsafe (HtmlChunk.lit s) (by simp)
        rw [fragSafe] at hfs
        simp only [Bool.and_eq_true, Bool.not_eq_true'] at hfs
        rcases ltsc_split t₁ t₂ ht.symm h₁ne h₂ne with rfl | rfl
        · rw [renderChunk] at hsuf
          have := List.isSuffixOf_iff_suffix.mpr hsuf
          rw [this] at hfs
          exact absurd hfs.1.2 (by simp)
        · rw [renderChunk] at hsuf
          have := List.isSuffixOf_iff_suffix.mpr hsuf
          rw [this] at hfs
          exact absurd hfs.2 (by simp)
      · rcases ltsc_split t₁ t₂ ht.symm h₁ne h₂ne with rfl | rfl
        · have : '<' ∈ renderChunk (HtmlChunk.esc s) := hsuf.subset (by simp)
          rw [renderChunk] at this
          exact lt_not_mem_escapeHtml s this
        · have : '<' ∈ renderChunk (HtmlChunk.esc s) := hsuf.subset (by simp)
          rw [renderChunk] at this
          exact lt_not_mem_escapeHtml s this

/-! ## Escaper refinement lemmas -/

/-- The source's replacement action agrees with the specification's
character table. -/
theorem replaceReservedChar_eq_spec (c : Char) :
    replaceReservedChar c = specEscapeChar c := by
  by_cases h1 : c = '&'
  · subst h1; decide
  by_cases h2 : c = '<'
  · subst h2; decide
  by_cases h3 : c = '>'
  · subst h3; decide
  by_cases h4 : c = quotChar
  · subst h4; decide
  by_cases h5 : c = aposChar
  · subst h5; decide
  have hr : isHtmlReserved c = false := by
    simp [isHtmlReserved, h1, h2, h3, h4, h5]
  rw [replaceReservedChar, hr]
  rw [specEscapeChar, if_neg h1, if_neg h2, if_neg h3, if_neg h4, if_neg h5]
  simp

/-- Flattening singletons is the identity. -/
theorem flatten_map_pure (l : List Char) : (l.map fun c => [c]).flatten = l := by
  induction l with
  | nil => rfl
  | cons c t ih => simp [ih]

/-- C4: `escapeHtml` is the single-pass, order-preserving character-wise
replacement of the five reserved characters by their entity references;
it maps the empty string to the empty string and leaves any input free of
reserved characters unchanged. -/
theorem escapeHtml_spec (s : String) :
    (escapeHtml s).data = (s.data.map specEscapeChar).flatten
    ∧ escapeHtml "" = ""
    ∧ ((∀ c ∈ s.data, isHtmlReserved c = false) → escapeHtml s = s) := by
  refine ⟨?_, rfl, ?_⟩
  · show (s.data.map replaceReservedChar).flatten = _
    rw [funext replaceReservedChar_eq_spec]
  · intro h
    show String.mk (s.data.map replaceReservedChar).flatten = s
    have hmap : s.data.map replaceReservedChar = s.data.map fun c => [c] := by
      apply List.map_congr_left
      intro c hc
      rw [replaceReservedChar, h c hc]
      simp
    rw [hmap, flatten_map_pure]

/-- Witness for C4 at concrete inputs. -/
theorem escapeHtml_spec_witness :
    escapeHtml "hello world" = "hello world" ∧ escapeHtml "" = "" :=
  ⟨(escapeHtml_spec "hello world").2.2 (by decide), (escapeHtml_spec "hello world").2.1⟩

/-! ## reCAPTCHA theorems -/

/-- C5: with no secret key configured, `verifyRecaptcha` returns true for
every token and performs no network call. -/
theorem verifyRecaptcha_no_secret (token : String) (net : FetchOutcome) :
    verifyRecaptcha token none net = { verdict := true, networkCalled := false } :=
  rfl

/-- C6: with a non-empty secret key, an exception thrown by the network
call or by response parsing makes `verifyRecaptcha` return false. -/
theorem verifyRecaptcha_throw_false (token : String) (sk : String)
    (hsk : sk ≠ "") :
    (verifyRecaptcha token (some sk) FetchOutcome.throwEx).verdict = false
    ∧ (verifyRecaptcha token (some sk) FetchOutcome.throwEx).networkCalled = true := by
  have hf : jsFalsyStr (some sk) = false := by
    simp [jsFalsyStr, hsk]
  rw [verifyRecaptcha, hf]
  exact ⟨rfl, rfl⟩

/-- Witness for C6 at concrete inputs. -/
theorem verifyRecaptcha_throw_false_witness :
    (verifyRecaptcha "tok" (some "secret") FetchOutcome.throwEx).verdict = false
    ∧ (verifyRecaptcha "tok" (some "secret") FetchOutcome.throwEx).networkCalled = true :=
  verifyRecaptcha_throw_false "tok" "secret" (by decide)

/-- C9: the empty-string secret key is falsy, so `verifyRecaptcha`
behaves exactly like the not-configured case: true for every token, no
network call. -/
theorem verifyRecaptcha_empty_secret (token : String) (net : FetchOutcome) :
    verifyRecaptcha token (some "") net = verifyRecaptcha token none net
    ∧ verifyRecaptcha token (some "") net = { verdict := true, networkCalled := false } :=
  ⟨rfl, rfl⟩

/-! ## Security-answer theorems -/

/-- On each concrete variant, the source's variant normalization (which
skips the trim step) coincides with the specification's normalization. -/
theorem variant_norm_eq : ∀ v ∈ SECURITY_ANSWER_VARIANTS,
    removeDots (removeSpaces (lowerL v.data)) = specNormalize v := by
  decide

/-- C2: `validateSecurityAnswer` accepts exactly the strings whose
normalization (trim, lowercase, strip whitespace, strip dots) equals the
normalization of one of the fixed accepted variants; in particular it
rejects the empty string. -/
theorem validateSecurityAnswer_spec (s : String) :
    (validateSecurityAnswer s = true ↔
      specNormalize s ∈ SECURITY_ANSWER_VARIANTS.map specNormalize)
    ∧ validateSecurityAnswer "" = false := by
  refine ⟨?_, by decide⟩
  simp only [validateSecurityAnswer, List.any_eq_true]
  constructor
  · rintro ⟨v, hv, hbeq⟩
    rw [List.mem_map]
    have heq : specNormalize s = removeDots (removeSpaces (lowerL v.data)) :=
      eq_of_beq hbeq
    exact ⟨v, hv, ((variant_norm_eq v hv).symm.trans heq.symm : _)⟩
  · intro hmem
    obtain ⟨v, hv, heq⟩ := List.mem_map.mp hmem
    refine ⟨v, hv, beq_of_eq ?_⟩
    rw [variant_norm_eq v hv]
    exact heq.symm

/-! ## Form-validator theorems -/

/-- The string type guard holds exactly on string values. -/
theorem isStrJS_eq_true_iff (x : JSValue) :
    isStrJS x = true ↔ ∃ s, x = JSValue.str s := by
  cases x <;> simp [isStrJS]

/-- Reading the character data under a string type guard. -/
theorem isStr_and_prop (x : JSValue) (p : List Char → Prop) :
    ((∃ s, x = JSValue.str s) ∧ p (strOfJS x)) ↔
      ∃ s, x = JSValue.str s ∧ p s.data := by
  constructor
  · rintro ⟨⟨s, rfl⟩, hp⟩
    exact ⟨s, rfl, hp⟩
  · rintro ⟨s, rfl, hp⟩
    exact ⟨⟨s, rfl⟩, hp⟩

/-- C3: `validateContactForm` accepts exactly the non-null objects whose
`name` is a string with non-blank trimmed content, whose `email` is a
string containing `@`, whose `message` is a string with non-blank trimmed
content, and whose `securityAnswer` is a string; it places no constraint
on `company`, `phone` or `recaptchaToken`, and rejects `null`,
`undefined` and the empty object. -/
theorem validateContactForm_spec (v : JSValue) :
    (validateContactForm v = true ↔
      ((∃ fs, v = JSValue.obj fs)
       ∧ (∃ s, getFieldJS v "name" = JSValue.str s ∧ 0 < (trimL s.data).length)
       ∧ (∃ s, getFieldJS v "email" = JSValue.str s ∧ occursIn "@".data s.data = true)
       ∧ (∃ s, getFieldJS v "message" = JSValue.str s ∧ 0 < (trimL s.data).length)
       ∧ (∃ s, getFieldJS v "securityAnswer" = JSValue.str s)))
    ∧ validateContactForm JSValue.null = false
    ∧ validateContactForm JSValue.undefined = false
    ∧ validateContactForm (JSValue.obj []) = false := by
  refine ⟨?_, by decide, by decide, by decide⟩
  cases v with
  | null =>
    constructor
    · intro h
      exact absurd h (by decide)
    · rintro ⟨⟨fs, hfs⟩, -⟩
      cases hfs
  | undefined =>
    constructor
    · intro h
      exact absurd h (by decide)
    · rintro ⟨⟨fs, hfs⟩, -⟩
      cases hfs
  | boolean b =>
    constructor
    · intro h
      have hfalse : validateContactForm (JSValue.boolean b) = false := rfl
      rw [hfalse] at h
      cases h
    · rintro ⟨⟨fs, hfs⟩, -⟩
      cases hfs
  | number n =>
    constructor
    · intro h
      have hfalse : validateContactForm (JSValue.number n) = false := rfl
      rw [hfalse] at h
      cases h
    · rintro ⟨⟨fs, hfs⟩, -⟩
      cases hfs
  | str s =>
    constructor
    · intro h
      have hfalse : validateContactForm (JSValue.str s) = false := rfl
      rw [hfalse] at h
      cases h
    · rintro ⟨⟨fs, hfs⟩, -⟩
      cases hfs
  | obj fields =>
    have hguard : validateContactForm (JSValue.obj fields) =
        ((isStrJS (getFieldJS (JSValue.obj fields) "name") &&
          decide (0 < (trimL (strOfJS (getFieldJS (JSValue.obj fields) "name"))).length)) &&
         (isStrJS (getFieldJS (JSValue.obj fields) "email") &&
          occursIn "@".data (strOfJS (getFieldJS (JSValue.obj fields) "email"))) &&
         (isStrJS (getFieldJS (JSValue.obj fields) "message") &&
          decide (0 < (trimL (strOfJS (getFieldJS (JSValue.obj fields) "message"))).length)) &&
         isStrJS (getFieldJS (JSValue.obj fields) "securityAnswer")) := rfl
    rw [hguard]
    simp only [Bool.and_eq_true, decide_eq_true_eq, isStrJS_eq_true_iff, and_assoc]
    constructor
    · rintro ⟨hA1, hA2, hB1, hB2, hC1, hC2, hD⟩
      exact ⟨⟨fields, rfl⟩,
        (isStr_and_prop _ fun l => 0 < (trimL l).length).mp ⟨hA1, hA2⟩,
        (isStr_and_prop _ fun l => occursIn "@".data l = true).mp ⟨hB1, hB2⟩,
        (isStr_and_prop _ fun l => 0 < (trimL l).length).mp ⟨hC1, hC2⟩, hD⟩
    · rintro ⟨-, hA, hB, hC, hD⟩
      obtain ⟨hA1, hA2⟩ := (isStr_and_prop _ fun l => 0 < (trimL l).length).mpr hA
      obtain ⟨hB1, hB2⟩ := (isStr_and_prop _ fun l => occursIn "@".data l = true).mpr hB
      obtain ⟨hC1, hC2⟩ := (isStr_and_prop _ fun l => 0 < (trimL l).length).mpr hC
      exact ⟨hA1, hA2, hB1, hB2, hC1, hC2, hD⟩

/-! ## Send-routine theorems -/

/-- C7: if either of the two transporter sends rejects, the whole
operation is reported as failed with the fixed generic error string
(independent of the rejection), and no message is dispatched more than
once (no retry). -/
theorem sendContactEmail_fail_generic (d : ContactFormData)
    (t : MailOptions → Bool) (g : String)
    (h : t (notificationOptions d g) = false ∨ t (autoReplyOptions d g) = false) :
    (sendContactEmail d t g).result.success = false
    ∧ (sendContactEmail d t g).result.error = some contactFailureError
    ∧ ((sendContactEmail d t g).sent = [notificationOptions d g]
       ∨ (sendContactEmail d t g).sent =
          [notificationOptions d g, autoReplyOptions d g]) := by
  cases h1 : t (notificationOptions d g) <;>
    cases h2 : t (autoReplyOptions d g) <;>
      simp_all [sendContactEmail]

/-- Witness for C7 at concrete inputs. -/
theorem sendContactEmail_fail_generic_witness :
    (sendContactEmail sampleFormData (fun _ => false) "admin@example.com").result.success = false
    ∧ (sendContactEmail sampleFormData (fun _ => false) "admin@example.com").result.error =
        some contactFailureError
    ∧ ((sendContactEmail sampleFormData (fun _ => false) "admin@example.com").sent =
        [notificationOptions sampleFormData "admin@example.com"]
       ∨ (sendContactEmail sampleFormData (fun _ => false) "admin@example.com").sent =
        [notificationOptions sampleFormData "admin@example.com",
         autoReplyOptions sampleFormData "admin@example.com"]) :=
  sendContactEmail_fail_generic sampleFormData (fun _ => false) "admin@example.com"
    (Or.inl rfl)

/-- C8: the dispatch trace is always the notification alone or the
notification followed by the auto-reply — strictly sequential, never the
opposite order; the notification is addressed to the operator and the
auto-reply to the submitter. -/
theorem sendContactEmail_sequential (d : ContactFormData)
    (t : MailOptions → Bool) (g : String) :
    ((sendContactEmail d t g).sent = [notificationOptions d g]
     ∨ (sendContactEmail d t g).sent =
        [notificationOptions d g, autoReplyOptions d g])
    ∧ (notificationOptions d g).toAddr = g
    ∧ (autoReplyOptions d g).toAddr = d.email := by
  refine ⟨?_, rfl, rfl⟩
  cases h1 : t (notificationOptions d g) <;>
    cases h2 : t (autoReplyOptions d g) <;>
      simp [sendContactEmail, h1, h2]

/-- C10: if the notification send rejects, the auto-reply is never
attempted — exactly one message was dispatched — and the result is a
failure. -/
theorem sendContactEmail_first_reject (d : ContactFormData)
    (t : MailOptions → Bool) (g : String)
    (h : t (notificationOptions d g) = false) :
    (sendContactEmail d t g).sent = [notificationOptions d g]
    ∧ (sendContactEmail d t g).result.success = false := by
  simp [sendContactEmail, h]

/-- Witness for C10 at concrete inputs. -/
theorem sendContactEmail_first_reject_witness :
    (sendContactEmail sampleFormData (fun _ => false) "admin@example.com").sent =
      [notificationOptions sampleFormData "admin@example.com"]
    ∧ (sendContactEmail sampleFormData (fun _ => false) "admin@example.com").result.success =
        false :=
  sendContactEmail_first_reject sampleFormData (fun _ => false) "admin@example.com" rfl

/-! ## Notification-body theorems -/

/-- The notification HTML body is the rendering of its chunk view. -/
theorem notifHtml_chunks_eq (d : ContactFormData) (g : String) :
    (notificationOptions d g).html.data = renderChunks (notifHtmlChunks d) := by
  cases hc : jsTruthyStr d.company <;> cases hp : jsTruthyStr d.phone <;>
    simp [notificationOptions, notifHtmlChunks, renderChunks, renderChunk, hc, hp]

/-- A literal chunk is safe once `fragSafe` holds. -/
theorem chunkSafe_lit (s : String) (h : fragSafe s = true) :
    chunkSafe (HtmlChunk.lit s) := h

/-- An escaped chunk is always safe. -/
theorem chunkSafe_esc (s : String) : chunkSafe (HtmlChunk.esc s) := trivial

/-- Every chunk of the notification body is safe for `['<', 's', 'c']`. -/
theorem notifChunks_safe (d : ContactFormData) :
    ∀ c ∈ notifHtmlChunks d, chunkSafe c := by
  intro c hc
  rw [notifHtmlChunks] at hc
  simp only [List.mem_cons, List.not_mem_nil, or_false] at hc
  rcases hc with rfl | rfl | rfl | rfl | rfl | rfl | rfl | rfl | rfl | rfl | rfl | rfl | rfl
  · exact chunkSafe_lit notifHtmlA (by decide)
  · exact chunkSafe_esc _
  · exact chunkSafe_lit notifHtmlB (by decide)
  · cases jsTruthyStr d.company
    · exact chunkSafe_lit notEnteredPlaceholder (by decide)
    · exact chunkSafe_esc _
  · exact chunkSafe_lit notifHtmlC (by decide)
  · exact chunkSafe_esc _
  · exact chunkSafe_lit notifHtmlD (by decide)
  · exact chunkSafe_esc _
  · exact chunkSafe_lit notifHtmlE (by decide)
  · cases jsTruthyStr d.phone
    · exact chunkSafe_lit notEnteredPlaceholder (by decide)
    · exact chunkSafe_esc _
  · exact chunkSafe_lit notifHtmlF (by decide)
  · exact chunkSafe_esc _
  · exact chunkSafe_lit notifHtmlG (by decide)

/-- The rendering of any member chunk occurs in the rendered body. -/
theorem renderChunk_infix_of_mem (c : HtmlChunk) (cs : List HtmlChunk)
    (h : c ∈ cs) : renderChunk c <:+: renderChunks cs := by
  induction cs with
  | nil => cases h
  | cons x cs ih =>
    rw [renderChunks]
    rcases List.mem_cons.mp h with rfl | h2
    · exact (List.prefix_append _ _).isInfix
    · obtain ⟨s, e, he⟩ := ih h2
      exact ⟨renderChunk x ++ s, e, by
        simp only [List.append_assoc] at he ⊢
        rw [he]⟩

/-- Escaping the raw script tag yields its escaped form. -/
theorem escapeFlat_scriptTag : escapeFlat scriptTag.data = escapedScriptTag.data := by
  decide

/-- Escaping maps an occurrence of the raw script tag to an occurrence of
its escaped form. -/
theorem escaped_needle_occurs (s : String) (h : scriptTag.data <:+: s.data) :
    escapedScriptTag.data <:+: (escapeHtml s).data := by
  obtain ⟨a, e, he⟩ := h
  show escapedScriptTag.data <:+: escapeFlat s.data
  rw [← he, escapeFlat_append, escapeFlat_append, escapeFlat_scriptTag]
  exact ⟨escapeFlat a, escapeFlat e, rfl⟩

/-- C1: whenever the submitted name contains the raw substring
`<script>`, the HTML body of the first message passed to the transporter
(the admin notification) contains the escaped form `&lt;script&gt;` and
never the raw substring `<script>`. -/
theorem sendContactEmail_notification_escapes_script (d : ContactFormData)
    (t : MailOptions → Bool) (g : String)
    (h : occursIn scriptTag.data d.name.data = true) :
    ∃ rest, (sendContactEmail d t g).sent = notificationOptions d g :: rest
      ∧ occursIn escapedScriptTag.data (notificationOptions d g).html.data = true
      ∧ occursIn scriptTag.data (notificationOptions d g).html.data = false := by
  have hinf : scriptTag.data <:+: d.name.data := (occursIn_iff _ _).mp h
  have hpos : escapedScriptTag.data <:+: (notificationOptions d g).html.data := by
    rw [notifHtml_chunks_eq]
    refine (escaped_needle_occurs d.name hinf).trans ?_
    have hmem : HtmlChunk.esc d.name ∈ notifHtmlChunks d := by
      rw [notifHtmlChunks]
      exact List.mem_cons_of_mem _ (List.mem_cons_self _ _)
    exact renderChunk_infix_of_mem _ _ hmem
  have hneg : ¬ scriptTag.data <:+: (notificationOptions d g).html.data := by
    intro hcon
    have h3 : ['<', 's', 'c'] <:+: (notificationOptions d g).html.data :=
      (List.IsPrefix.isInfix (List.isPrefixOf_iff_prefix.mp (by decide))).trans hcon
    rw [notifHtml_chunks_eq] at h3
    exact renderChunks_no_ltsc _ (notifChunks_safe d) h3
  have hsent : ∃ rest,
      (sendContactEmail d t g).sent = notificationOptions d g :: rest := by
    cases h1 : t (notificationOptions d g)
    · exact ⟨[], by simp [sendContactEmail, h1]⟩
    · cases h2 : t (autoReplyOptions d g)
      · exact ⟨[autoReplyOptions d g], by simp [sendContactEmail, h1, h2]⟩
      · exact ⟨[autoReplyOptions d g], by simp [sendContactEmail, h1, h2]⟩
  obtain ⟨rest, hrest⟩ := hsent
  refine ⟨rest, hrest, (occursIn_iff _ _).mpr hpos, ?_⟩
  cases hb : occursIn scriptTag.data (notificationOptions d g).html.data
  · rfl
  · exact absurd ((occursIn_iff _ _).mp hb) hneg

/-- Witness for C1 at concrete inputs. -/
theorem sendContactEmail_notification_escapes_script_witness :
    ∃ rest, (sendContactEmail sampleAttackData (fun _ => true) "admin@example.com").sent =
        notificationOptions sampleAttackData "admin@example.com" :: rest
      ∧ occursIn escapedScriptTag.data
          (notificationOptions sampleAttackData "admin@example.com").html.data = true
      ∧ occursIn scriptTag.data
          (notificationOptions sampleAttackData "admin@example.com").html.data = false :=
  sendContactEmail_notification_escapes_script sampleAttackData (fun _ => true)
    "admin@example.com" (by decide)
